import Mathlib

/-!
# Verification of the streaming therapy-chat relay (`src/main.py`)

Shallow embedding of the FastAPI relay in `main.py`:

* `build_messages` — the prompt composer (lines 69-89 of the source).
* `relayStream` — the `async for chunk in stream` loop body of
  `websocket_chat` (lines 271-278): one outbound `chunk` frame per provider
  chunk that has a first choice whose delta content is truthy.
* `handle_user_message` — the body of the `if message.get("type") ==
  "user_message"` branch (lines 249-306): the external world (provider chunk
  sequence, whether the stream ends naturally or raises, the two `time.time()`
  readings and the `time.strftime` result) is an explicit `TurnEnv` oracle.
* `websocket_chat_loop` / `websocket_chat` — the `while True` receive loop
  (lines 244-311).  Inbound text frames are embedded at the parse-result
  level: `InEvent.badFrame` stands for a frame on which `json.loads` raises or
  whose parse result has no `.get` method (both escape the loop to the outer
  `except` handlers), and `InEvent.frame type_field text_field env` stands for
  a frame parsed to a JSON object whose `"type"` / `"text"` entries are the
  given optional strings.  The end of the event list stands for
  `WebSocketDisconnect` raised by `receive_text`.
* `speech_to_text` / `text_to_speech` — the error paths of the one-shot
  conversion endpoints (lines 135-218), with the provider round trip as an
  explicit `Except` oracle.

`time.time()` values and durations are modelled as rationals; Python's
`round(x, 2)` is modelled as `round2` (rounding to the nearest hundredth —
the float tie-breaking detail is immaterial here, no claim depends on ties).
-/

namespace TherapyRelay

/-- The module-level constant `MASTER_THERAPY_PROMPT` of `main.py`. -/
def MASTER_THERAPY_PROMPT : String :=
"\nYou are an empathetic, licensed-therapist-style AI assistant.\nYou respond with warmth, clarity, and psychological insight.\n[TODO: real master prompt text will be pasted here later.]\n"

/-- One element of the `messages` array built for the chat-completion call:
a Python dict with a `role` and a `content` key. -/
structure ChatMessage where
  role : String
  content : String
deriving DecidableEq, Repr

/-- The fixed model name assigned in `websocket_chat` (line 239). -/
def model_name : String := "gpt-4o-mini"

/-- `build_messages(patient_text, therapist_whisper)` from `main.py`
(lines 69-89).  Python's truthiness test `if therapist_whisper:` is false for
both `None` and the empty string, so the optional second system entry is
appended exactly when the whisper is present and non-empty. -/
def build_messages (patient_text : String) (therapist_whisper : Option String) :
    List ChatMessage :=
  let messages : List ChatMessage :=
    [{ role := "system", content := MASTER_THERAPY_PROMPT }]
  let messages :=
    match therapist_whisper with
    | some w =>
        if w = "" then messages
        else messages ++ [{ role := "system", content := w }]
    | none => messages
  messages ++ [{ role := "user", content := patient_text }]

/-- The `delta` object of a streamed chunk choice; `content` is `none` for
JSON `null` / absent. -/
structure ChoiceDelta where
  content : Option String
deriving DecidableEq, Repr

/-- One element of `chunk.choices`. -/
structure ChunkChoice where
  delta : ChoiceDelta
deriving DecidableEq, Repr

/-- One chunk event delivered by the provider stream. -/
structure StreamChunk where
  choices : List ChunkChoice
deriving DecidableEq, Repr

/-- An outbound websocket frame sent by the relay:
`{"type":"chunk","text":...}`, `{"type":"done"}` or
`{"type":"error","text":...}`. -/
inductive OutFrame where
  | chunk (text : String)
  | done
  | error (text : String)
deriving DecidableEq, Repr

/-- Executable contiguous-substring test over character lists, modelling
Python's `in` operator on strings. -/
def strContains (haystack needle : List Char) : Bool :=
  (List.range (haystack.length + 1)).any
    (fun i => (haystack.drop i).take needle.length == needle)

/-- The credential-error detection `"api_key" in error_message.lower()`
shared by all three error handlers in `main.py`.  Lowercasing is modelled
per character; the search pattern is ASCII, so Unicode-specific lowering
differences cannot affect the test. -/
def credential_error (message : String) : Bool :=
  strContains (message.toList.map Char.toLower) "api_key".toList

/-- Error normalization of the websocket handler (lines 298-300): a
credential-shaped provider message is replaced by the fixed user-safe text,
anything else passes through unchanged. -/
def normalize_stream_error (message : String) : String :=
  if credential_error message then
    "OpenAI API key not configured. Please set OPENAI_API_KEY in Replit Secrets."
  else message

/-- Error normalization of the one-shot conversion endpoints
(lines 166-169 and 210-213). -/
def normalize_conversion_error (message : String) : String :=
  if credential_error message then "OpenAI API key not configured"
  else message

/-- One entry of `BILLING_RECORDS` (lines 285-290): exactly the four keys
`session_id`, `duration_seconds`, `model`, `timestamp`. -/
structure BillingRecord where
  session_id : String
  duration_seconds : ℚ
  model : String
  timestamp : String
deriving DecidableEq, Repr

/-- Python's `round(x, 2)`: round to the nearest hundredth. -/
def round2 (x : ℚ) : ℚ := (round (x * 100) : ℤ) / 100

/-- The external environment of one turn: the chunk sequence the provider
stream yields before it either ends naturally (`failure = none`) or raises an
exception carrying `str(e)` (`failure = some msg`); the two `time.time()`
readings; and the `time.strftime("%Y-%m-%d %H:%M:%S", time.gmtime())`
result. -/
structure TurnEnv where
  chunks : List StreamChunk
  failure : Option String
  start_time : ℚ
  end_time : ℚ
  utc_timestamp : String
deriving DecidableEq, Repr

/-- The `async for chunk in stream` loop of `websocket_chat`
(lines 271-278): for each chunk, if `chunk.choices` is truthy and non-empty
and `chunk.choices[0].delta.content` is truthy (non-`None`, non-empty), send
one `chunk` frame with that content; otherwise send nothing. -/
def relayStream : List StreamChunk → List OutFrame
  | [] => []
  | c :: rest =>
    match c.choices with
    | [] => relayStream rest
    | choice :: _ =>
      match choice.delta.content with
      | none => relayStream rest
      | some s =>
          if s = "" then relayStream rest
          else OutFrame.chunk s :: relayStream rest

/-- The text a provider chunk contributes to the outbound stream, written
from the spec's words: the chunk's content when it is non-empty, nothing
when the content is empty or absent.  Used to state the declarative
characterization of `relayStream`. -/
def chunk_text (c : StreamChunk) : Option String :=
  match c.choices with
  | [] => none
  | choice :: _ =>
    match choice.delta.content with
    | none => none
    | some s => if s = "" then none else some s

/-- Everything one `user_message` turn produces: the outbound frames, the
optional billing-ledger append, and the `messages` list handed to the
completion provider. -/
structure TurnOutput where
  frames : List OutFrame
  record : Option BillingRecord
  provider_messages : List ChatMessage
deriving DecidableEq, Repr

/-- The body of the `user_message` branch of `websocket_chat`
(lines 249-306).  `patient_text` is `message.get("text", "")`; the messages
list is built with `therapist_whisper=None`.  On natural stream end the
relayed chunk frames are followed by one `done` frame and exactly one
billing record is produced; on a provider exception the chunk frames
delivered before the failure are followed by one `error` frame with the
normalized message and no record is produced. -/
def handle_user_message (session_id model patient_text : String)
    (env : TurnEnv) : TurnOutput :=
  let messages := build_messages patient_text none
  match env.failure with
  | none =>
    { frames := relayStream env.chunks ++ [OutFrame.done]
    , record := some
        { session_id := session_id
        , duration_seconds := round2 (env.end_time - env.start_time)
        , model := model
        , timestamp := env.utc_timestamp }
    , provider_messages := messages }
  | some err =>
    { frames := relayStream env.chunks ++ [OutFrame.error (normalize_stream_error err)]
    , record := none
    , provider_messages := messages }

/-- One inbound websocket text frame, embedded at the parse-result level.
`badFrame`: `json.loads` raises, or the parse result is not a dict so
`message.get` raises — either exception escapes the `while` loop.
`frame t x env`: the frame parsed to a JSON object whose `"type"` entry is
`t` and `"text"` entry is `x` (`none` for absent), with `env` the external
environment the turn would see if it runs. -/
inductive InEvent where
  | badFrame
  | frame (type_field : Option String) (text_field : Option String) (env : TurnEnv)
deriving DecidableEq, Repr

/-- How the receive loop of `websocket_chat` ends: `disconnected` for the
`WebSocketDisconnect` handler (line 308), `crashed` for the generic
`except Exception` handler (line 310). -/
inductive LoopExit where
  | disconnected
  | crashed
deriving DecidableEq, Repr

/-- The observable behaviour of one connection: all outbound frames in
order, all billing-ledger appends in order, all completion-provider calls
in order, and how the loop ended. -/
structure SessionTrace where
  frames : List OutFrame
  records : List BillingRecord
  provider_calls : List (List ChatMessage)
  exit : LoopExit
deriving DecidableEq, Repr

/-- The `while True` receive loop of `websocket_chat` (lines 244-311) over a
finite inbound event list.  An exhausted list is a client disconnect; a
`badFrame` raises out of the loop into the generic handler; a parsed frame
whose `type` is not `"user_message"` is skipped silently; a `user_message`
frame runs one full turn and the loop continues. -/
def websocket_chat_loop (session_id model : String) : List InEvent → SessionTrace
  | [] =>
      { frames := [], records := [], provider_calls := []
      , exit := LoopExit.disconnected }
  | InEvent.badFrame :: _ =>
      { frames := [], records := [], provider_calls := []
      , exit := LoopExit.crashed }
  | InEvent.frame t x env :: rest =>
      if t = some "user_message" then
        let out := handle_user_message session_id model (x.getD "") env
        let tail := websocket_chat_loop session_id model rest
        { frames := out.frames ++ tail.frames
        , records := out.record.toList ++ tail.records
        , provider_calls := out.provider_messages :: tail.provider_calls
        , exit := tail.exit }
      else
        websocket_chat_loop session_id model rest

/-- `websocket_chat` for one connection: the receive loop with the
session's fresh `session_id` and the fixed `model_name`. -/
def websocket_chat (session_id : String) (events : List InEvent) : SessionTrace :=
  websocket_chat_loop session_id model_name events

/-- Response of a one-shot conversion endpoint: a success body, or the
error JSON with its HTTP status code. -/
inductive ConversionResponse where
  | ok (body : String)
  | error (message : String) (status : Nat)
deriving DecidableEq, Repr

/-- The `/api/stt` handler (lines 135-174) with the provider round trip as
an oracle: success returns the transcription, an exception carrying
`str(e)` returns the normalized error JSON with status 500. -/
def speech_to_text (transcription : Except String String) : ConversionResponse :=
  match transcription with
  | Except.ok t => ConversionResponse.ok t
  | Except.error e =>
      ConversionResponse.error (normalize_conversion_error e) 500

/-- The `/api/tts` handler (lines 177-218) with the provider round trip as
an oracle; the audio bytes are abstracted as an opaque body. -/
def text_to_speech (synthesis : Except String String) : ConversionResponse :=
  match synthesis with
  | Except.ok audio => ConversionResponse.ok audio
  | Except.error e =>
      ConversionResponse.error (normalize_conversion_error e) 500

/-- True exactly on the terminal frames `done` and `error`. -/
def isTerminalFrame : OutFrame → Bool
  | OutFrame.chunk _ => false
  | OutFrame.done => true
  | OutFrame.error _ => true

/-- True exactly on `error` frames. -/
def isErrorFrame : OutFrame → Bool
  | OutFrame.error _ => true
  | _ => false

/-! ## Helper lemmas -/

/-- The chunk-relay loop equals the declarative map over the per-chunk
contributed texts: one `chunk` frame per chunk with non-empty content, in
provider order. -/
lemma relayStream_eq_filterMap (cs : List StreamChunk) :
    relayStream cs = (cs.filterMap chunk_text).map OutFrame.chunk := by
  induction cs with
  | nil => rfl
  | cons c rest ih =>
    cases hc : c.choices with
    | nil => simp [relayStream, chunk_text, hc, ih]
    | cons choice tl =>
      cases hd : choice.delta.content with
      | none => simp [relayStream, chunk_text, hc, hd, ih]
      | some s =>
        by_cases hs : s = "" <;> simp [relayStream, chunk_text, hc, hd, hs, ih]

/-- Every frame the chunk-relay loop emits is a `chunk` frame. -/
lemma mem_relayStream {f : OutFrame} {cs : List StreamChunk}
    (h : f ∈ relayStream cs) : ∃ s, f = OutFrame.chunk s := by
  rw [relayStream_eq_filterMap] at h
  obtain ⟨s, -, rfl⟩ := List.mem_map.mp h
  exact ⟨s, rfl⟩

/-- The chunk-relay loop never emits a `done` frame. -/
lemma done_not_mem_relayStream (cs : List StreamChunk) :
    OutFrame.done ∉ relayStream cs := by
  intro h
  obtain ⟨s, hs⟩ := mem_relayStream h
  simp at hs

/-- The chunk-relay loop never emits an `error` frame. -/
lemma error_not_mem_relayStream (s : String) (cs : List StreamChunk) :
    OutFrame.error s ∉ relayStream cs := by
  intro h
  obtain ⟨s', hs⟩ := mem_relayStream h
  simp at hs

/-- The chunk-relay loop emits no terminal frame. -/
lemma countP_relayStream_terminal (cs : List StreamChunk) :
    (relayStream cs).countP isTerminalFrame = 0 := by
  rw [List.countP_eq_zero]
  intro f hf
  obtain ⟨s, rfl⟩ := mem_relayStream hf
  simp [isTerminalFrame]

/-- The chunk-relay loop emits no `error` frame (counting version). -/
lemma countP_relayStream_error (cs : List StreamChunk) :
    (relayStream cs).countP isErrorFrame = 0 := by
  rw [List.countP_eq_zero]
  intro f hf
  obtain ⟨s, rfl⟩ := mem_relayStream hf
  simp [isErrorFrame]

/-- Rounding to two decimals preserves non-negativity. -/
lemma round2_nonneg {q : ℚ} (h : 0 ≤ q) : 0 ≤ round2 q := by
  unfold round2
  apply div_nonneg _ (by norm_num)
  have h0 : (0 : ℤ) ≤ round (q * 100) := by
    rw [round_eq]
    apply Int.le_floor.mpr
    push_cast
    linarith
  exact_mod_cast h0

/-- The billing ledger is append-only across the receive loop: running more
events only extends the ledger produced by a prefix of the event list. -/
lemma websocket_chat_loop_records_extend (sid model : String)
    (evts more : List InEvent) :
    ∃ s, (websocket_chat_loop sid model (evts ++ more)).records
        = (websocket_chat_loop sid model evts).records ++ s := by
  induction evts with
  | nil =>
      exact ⟨(websocket_chat_loop sid model more).records,
        by simp [websocket_chat_loop]⟩
  | cons e rest ih =>
      obtain ⟨s, hs⟩ := ih
      cases e with
      | badFrame => exact ⟨[], by simp [websocket_chat_loop]⟩
      | frame t x env =>
          by_cases ht : t = some "user_message"
          · exact ⟨s, by simp [websocket_chat_loop, ht, hs]⟩
          · exact ⟨s, by simp [websocket_chat_loop, ht, hs]⟩

/-! ## Claim theorems -/

/-- C1: billing is noninterferent in message content.  Two runs of the
turn handler that differ only in the user utterance and in the provider
chunk sequence (same session id, model, clock readings and timestamp, both
completing naturally) append identical billing records — so no record field
is derived from the utterance or from any emitted chunk, and the session
id, model and field set agree between the runs. -/
theorem C1_billing_content_noninterference
    (sid model t1 t2 : String) (e1 e2 : TurnEnv)
    (h1 : e1.failure = none) (h2 : e2.failure = none)
    (hs : e1.start_time = e2.start_time) (he : e1.end_time = e2.end_time)
    (ht : e1.utc_timestamp = e2.utc_timestamp) :
    (handle_user_message sid model t1 e1).record
      = (handle_user_message sid model t2 e2).record := by
  simp [handle_user_message, h1, h2, hs, he, ht]

/-- Environment for the first run of the C1 witness: one non-empty chunk. -/
def envC1a : TurnEnv :=
  { chunks := [{ choices := [{ delta := { content := some "Hel" } }] }]
  , failure := none, start_time := 0, end_time := 1
  , utc_timestamp := "2026-01-01 00:00:00" }

/-- Environment for the second run of the C1 witness: no chunks at all. -/
def envC1b : TurnEnv :=
  { chunks := [], failure := none, start_time := 0, end_time := 1
  , utc_timestamp := "2026-01-01 00:00:00" }

/-- Witness for C1 at concrete runs differing in utterance and chunks. -/
theorem C1_witness :
    (handle_user_message "sess" "gpt-4o-mini" "hello there" envC1a).record
      = (handle_user_message "sess" "gpt-4o-mini" "other text" envC1b).record :=
  C1_billing_content_noninterference "sess" "gpt-4o-mini" "hello there"
    "other text" envC1a envC1b rfl rfl rfl rfl rfl

/-- C2: a turn whose provider stream is consumed to natural end appends
exactly one billing record with exactly the fields `session_id`,
`round2`-rounded duration, `model` and the UTC timestamp; its frame list
contains exactly one `done` frame, placed last, and no `error` frame; the
receive loop then continues compositionally with the remaining events
(back to Idle); and the ledger is append-only (a longer event list only
extends the records of a prefix — never mutates or deletes them). -/
theorem C2_completed_turn_bills_once_then_done
    (sid model t : String) (env : TurnEnv) (h : env.failure = none) :
    ((handle_user_message sid model t env).record
        = some { session_id := sid
               , duration_seconds := round2 (env.end_time - env.start_time)
               , model := model
               , timestamp := env.utc_timestamp })
    ∧ (handle_user_message sid model t env).frames.count OutFrame.done = 1
    ∧ (handle_user_message sid model t env).frames.getLast? = some OutFrame.done
    ∧ (∀ s, OutFrame.error s ∉ (handle_user_message sid model t env).frames)
    ∧ (∀ rest, websocket_chat_loop sid model
          (InEvent.frame (some "user_message") (some t) env :: rest)
        = { frames := (handle_user_message sid model t env).frames
              ++ (websocket_chat_loop sid model rest).frames
          , records := (handle_user_message sid model t env).record.toList
              ++ (websocket_chat_loop sid model rest).records
          , provider_calls := (handle_user_message sid model t env).provider_messages
              :: (websocket_chat_loop sid model rest).provider_calls
          , exit := (websocket_chat_loop sid model rest).exit })
    ∧ (∀ evts more, ∃ s,
        (websocket_chat_loop sid model (evts ++ more)).records
          = (websocket_chat_loop sid model evts).records ++ s) := by
  have hf : (handle_user_message sid model t env).frames
      = relayStream env.chunks ++ [OutFrame.done] := by
    simp [handle_user_message, h]
  refine ⟨?_, ?_, ?_, ?_, ?_, ?_⟩
  · simp [handle_user_message, h]
  · rw [hf, List.count_append,
      List.count_eq_zero.mpr (done_not_mem_relayStream env.chunks)]
    rfl
  · rw [hf]; simp
  · intro s
    rw [hf]
    simp [error_not_mem_relayStream s env.chunks]
  · intro rest
    simp [websocket_chat_loop]
  · exact websocket_chat_loop_records_extend sid model

/-- Environment for the C2 witness: one chunk then natural end. -/
def envC2 : TurnEnv :=
  { chunks := [{ choices := [{ delta := { content := some "hi" } }] }]
  , failure := none, start_time := 0, end_time := 1
  , utc_timestamp := "2026-01-01 00:00:00" }

/-- Witness for C2 at a concrete completed turn. -/
theorem C2_witness :
    envC2.failure = none
    ∧ (handle_user_message "sess" "gpt-4o-mini" "hello" envC2).frames.count
        OutFrame.done = 1
    ∧ (handle_user_message "sess" "gpt-4o-mini" "hello" envC2).frames.getLast?
        = some OutFrame.done :=
  ⟨rfl, (C2_completed_turn_bills_once_then_done "sess" "gpt-4o-mini" "hello"
      envC2 rfl).2.1,
    (C2_completed_turn_bills_once_then_done "sess" "gpt-4o-mini" "hello"
      envC2 rfl).2.2.1⟩

/-- C3: a turn during which the provider raises (after any number of
delivered chunks) appends no billing record, ends its frame list with
exactly one `error` frame whose text is the provider-derived normalized
message, emits no `done` frame, and the receive loop continues with the
remaining events: the ledger after the turn equals the ledger the remaining
events alone produce, the frames compose, and the loop exit is unchanged —
the connection stays usable. -/
theorem C3_provider_failure_no_billing
    (sid model t err : String) (env : TurnEnv) (h : env.failure = some err) :
    ((handle_user_message sid model t env).record = none)
    ∧ (handle_user_message sid model t env).frames.getLast?
        = some (OutFrame.error (normalize_stream_error err))
    ∧ (handle_user_message sid model t env).frames.countP isErrorFrame = 1
    ∧ OutFrame.done ∉ (handle_user_message sid model t env).frames
    ∧ (∀ rest, (websocket_chat_loop sid model
          (InEvent.frame (some "user_message") (some t) env :: rest)).records
        = (websocket_chat_loop sid model rest).records)
    ∧ (∀ rest, (websocket_chat_loop sid model
          (InEvent.frame (some "user_message") (some t) env :: rest)).frames
        = (handle_user_message sid model t env).frames
            ++ (websocket_chat_loop sid model rest).frames)
    ∧ (∀ rest, (websocket_chat_loop sid model
          (InEvent.frame (some "user_message") (some t) env :: rest)).exit
        = (websocket_chat_loop sid model rest).exit) := by
  have hf : (handle_user_message sid model t env).frames
      = relayStream env.chunks ++ [OutFrame.error (normalize_stream_error err)] := by
    simp [handle_user_message, h]
  refine ⟨?_, ?_, ?_, ?_, ?_, ?_, ?_⟩
  · simp [handle_user_message, h]
  · rw [hf]; simp
  · rw [hf, List.countP_append, countP_relayStream_error]
    rfl
  · rw [hf]
    simp [done_not_mem_relayStream env.chunks]
  · intro rest
    simp [websocket_chat_loop, handle_user_message, h]
  · intro rest
    simp [websocket_chat_loop]
  · intro rest
    simp [websocket_chat_loop]

/-- Environment for the C3 witness: one delivered chunk, then the provider
raises. -/
def envC3 : TurnEnv :=
  { chunks := [{ choices := [{ delta := { content := some "par" } }] }]
  , failure := some "rate limit exceeded", start_time := 0, end_time := 1
  , utc_timestamp := "2026-01-01 00:00:00" }

/-- Witness for C3 at a concrete failing turn. -/
theorem C3_witness :
    envC3.failure = some "rate limit exceeded"
    ∧ (handle_user_message "sess" "gpt-4o-mini" "hello" envC3).record = none
    ∧ (handle_user_message "sess" "gpt-4o-mini" "hello" envC3).frames.getLast?
        = some (OutFrame.error (normalize_stream_error "rate limit exceeded")) :=
  ⟨rfl, (C3_provider_failure_no_billing "sess" "gpt-4o-mini" "hello"
      "rate limit exceeded" envC3 rfl).1,
    (C3_provider_failure_no_billing "sess" "gpt-4o-mini" "hello"
      "rate limit exceeded" envC3 rfl).2.1⟩

/-- C4: the relay emits exactly one `chunk` frame per provider chunk with
non-empty delta content, carrying that text unchanged in provider order
(the emit loop equals the declarative filter-map, so there is no buffering,
coalescing or reordering, and chunks with empty or absent content produce
no frame); within a turn these frames are exactly the output before the
single terminal frame. -/
theorem C4_chunk_passthrough_in_order (cs : List StreamChunk)
    (sid model t : String) (env : TurnEnv) :
    relayStream cs = (cs.filterMap chunk_text).map OutFrame.chunk
    ∧ ∃ terminal, (handle_user_message sid model t env).frames
        = (env.chunks.filterMap chunk_text).map OutFrame.chunk ++ [terminal] := by
  refine ⟨relayStream_eq_filterMap cs, ?_⟩
  cases hfail : env.failure with
  | none =>
      exact ⟨OutFrame.done,
        by simp [handle_user_message, hfail, relayStream_eq_filterMap]⟩
  | some err =>
      exact ⟨OutFrame.error (normalize_stream_error err),
        by simp [handle_user_message, hfail, relayStream_eq_filterMap]⟩

/-- Environment exhibiting a backward clock step: `time.time()` reads 10 at
turn start and 5 at turn end. -/
def envC5 : TurnEnv :=
  { chunks := [], failure := none, start_time := 10, end_time := 5
  , utc_timestamp := "2026-01-01 00:00:00" }

/-- C5 counterexample: the handler stores `round(end - start, 2)` without
any clamping, so a turn whose clock readings go backward (start 10, end 5)
stores the negative duration -5 in the billing record — the claim that a
negative value is never stored is false of the code. -/
theorem C5_counterexample :
    ((handle_user_message "sess" "gpt-4o-mini" "hi" envC5).record.map
        BillingRecord.duration_seconds) = some (-5)
    ∧ ((-5 : ℚ) < 0) := by
  constructor
  · norm_num [handle_user_message, envC5, round2, round_eq]
  · norm_num

/-- C5 (amended): the stored duration equals `round2 (end - start)` with no
clamping; whenever the clock readings are monotone (start ≤ end) the stored
billing value is non-negative. -/
theorem C5_amended_nonneg_when_clock_monotone
    (sid model t : String) (env : TurnEnv) (h : env.failure = none)
    (hclock : env.start_time ≤ env.end_time) :
    ∀ r, (handle_user_message sid model t env).record = some r →
      r.duration_seconds = round2 (env.end_time - env.start_time)
      ∧ 0 ≤ r.duration_seconds := by
  intro r hr
  have hrec : (handle_user_message sid model t env).record
      = some { session_id := sid
             , duration_seconds := round2 (env.end_time - env.start_time)
             , model := model
             , timestamp := env.utc_timestamp } := by
    simp [handle_user_message, h]
  rw [hrec] at hr
  obtain rfl := Option.some.inj hr
  exact ⟨rfl, round2_nonneg (by linarith)⟩

/-- Environment for the C5 witness: a monotone clock (1 then 3). -/
def envC5w : TurnEnv :=
  { chunks := [], failure := none, start_time := 1, end_time := 3
  , utc_timestamp := "2026-01-01 00:00:00" }

/-- Witness for the amended C5 at a concrete monotone-clock turn. -/
theorem C5_witness :
    envC5w.failure = none
    ∧ envC5w.start_time ≤ envC5w.end_time
    ∧ 0 ≤ round2 (envC5w.end_time - envC5w.start_time) := by
  refine ⟨rfl, by norm_num [envC5w], ?_⟩
  exact (C5_amended_nonneg_when_clock_monotone "sess" "gpt-4o-mini" "hi" envC5w
    rfl (by norm_num [envC5w])
    { session_id := "sess"
    , duration_seconds := round2 (envC5w.end_time - envC5w.start_time)
    , model := "gpt-4o-mini"
    , timestamp := envC5w.utc_timestamp } rfl).2

/-- Environment for the C6 turn that would succeed if it were reached. -/
def envC6 : TurnEnv :=
  { chunks := [], failure := none, start_time := 0, end_time := 1
  , utc_timestamp := "2026-01-01 00:00:00" }

/-- C6 counterexample: a frame on which parsing raises is not silently
ignored — the exception escapes the receive loop to the generic handler, so
the connection handler exits (`crashed`) and a well-formed `user_message`
frame arriving right after it is never processed (no frames at all),
whereas the same `user_message` alone yields a `done` frame and a normal
disconnect.  The "remains able to process subsequent frames" part of the
claim is false of the code. -/
theorem C6_counterexample :
    (websocket_chat "sess" [InEvent.badFrame,
        InEvent.frame (some "user_message") (some "hi") envC6]).exit
      = LoopExit.crashed
    ∧ (websocket_chat "sess" [InEvent.badFrame,
        InEvent.frame (some "user_message") (some "hi") envC6]).frames = []
    ∧ (websocket_chat "sess" [InEvent.badFrame,
        InEvent.frame (some "user_message") (some "hi") envC6]).records = []
    ∧ (websocket_chat "sess"
        [InEvent.frame (some "user_message") (some "hi") envC6]).frames
      = [OutFrame.done]
    ∧ (websocket_chat "sess"
        [InEvent.frame (some "user_message") (some "hi") envC6]).exit
      = LoopExit.disconnected := by
  refine ⟨rfl, rfl, rfl, ?_, ?_⟩
  · simp [websocket_chat, websocket_chat_loop, handle_user_message, envC6,
      relayStream]
  · simp [websocket_chat, websocket_chat_loop]

/-- C6 (amended): a frame that parses to an object whose `type` is not
`user_message` is silently ignored — no frame, no record, no provider call,
and the loop continues exactly as if the frame had not arrived; a frame on
which parsing raises terminates the receive loop through the generic
exception handler with no frame and no record, so the connection does not
remain usable. -/
theorem C6_amended_ignore_vs_crash
    (sid model : String) (t x : Option String) (env : TurnEnv)
    (ht : t ≠ some "user_message") :
    (∀ rest, websocket_chat_loop sid model (InEvent.frame t x env :: rest)
        = websocket_chat_loop sid model rest)
    ∧ (∀ rest, websocket_chat_loop sid model (InEvent.badFrame :: rest)
        = { frames := [], records := [], provider_calls := []
          , exit := LoopExit.crashed }) := by
  refine ⟨?_, fun rest => rfl⟩
  intro rest
  simp [websocket_chat_loop, ht]

/-- Witness for the amended C6 at a concrete ignored frame. -/
theorem C6_witness :
    (some "ping" ≠ some "user_message")
    ∧ websocket_chat_loop "sess" "gpt-4o-mini"
        [InEvent.frame (some "ping") none envC6]
      = websocket_chat_loop "sess" "gpt-4o-mini" [] := by
  refine ⟨by decide, ?_⟩
  exact (C6_amended_ignore_vs_crash "sess" "gpt-4o-mini" (some "ping") none
    envC6 (by decide)).1 []

/-- C7: every accepted `user_message` turn produces zero or more `chunk`
frames followed by exactly one terminal frame, which is `done` or `error`;
terminals never occur earlier and exactly one terminal occurs in the
turn's whole frame list. -/
theorem C7_terminal_frame_grammar (sid model t : String) (env : TurnEnv) :
    ∃ pre terminal,
      (handle_user_message sid model t env).frames = pre ++ [terminal]
      ∧ (∀ f ∈ pre, ∃ s, f = OutFrame.chunk s)
      ∧ (terminal = OutFrame.done ∨ ∃ s, terminal = OutFrame.error s)
      ∧ (handle_user_message sid model t env).frames.countP isTerminalFrame
          = 1 := by
  cases hfail : env.failure with
  | none =>
      have hf : (handle_user_message sid model t env).frames
          = relayStream env.chunks ++ [OutFrame.done] := by
        simp [handle_user_message, hfail]
      refine ⟨relayStream env.chunks, OutFrame.done, hf,
        fun f hfm => mem_relayStream hfm, Or.inl rfl, ?_⟩
      rw [hf, List.countP_append, countP_relayStream_terminal]
      rfl
  | some err =>
      have hf : (handle_user_message sid model t env).frames
          = relayStream env.chunks
              ++ [OutFrame.error (normalize_stream_error err)] := by
        simp [handle_user_message, hfail]
      refine ⟨relayStream env.chunks, OutFrame.error (normalize_stream_error err),
        hf, fun f hfm => mem_relayStream hfm,
        Or.inr ⟨normalize_stream_error err, rfl⟩, ?_⟩
      rw [hf, List.countP_append, countP_relayStream_terminal]
      rfl

/-- C8: for every user text and optional whisper, `build_messages` returns
a non-empty list whose first element is the fixed directive as a
system-role entry and whose last element is the user text as a user-role
entry; its length is 3 when the whisper is present and non-empty (with the
whisper as the second system-role entry) and 2 otherwise.  The embedding is
a pure function, so neither input is mutated. -/
theorem C8_build_messages_shape (t : String) (w : Option String) :
    build_messages t w ≠ []
    ∧ (build_messages t w).head?
        = some { role := "system", content := MASTER_THERAPY_PROMPT }
    ∧ (build_messages t w).getLast? = some { role := "user", content := t }
    ∧ (build_messages t w).length
        = (match w with
           | none => 2
           | some s => if s = "" then 2 else 3)
    ∧ (∀ s, w = some s → s ≠ "" →
        (build_messages t w)[1]? = some { role := "system", content := s }) := by
  cases w with
  | none => simp [build_messages]
  | some s =>
      by_cases hs : s = "" <;>
        simp [build_messages, hs]

/-- C9: a provider failure whose reported text contains the
credential-related substring is surfaced as a fixed user-safe message, both
on the streaming error frame and on the one-shot conversion error
responses; any other provider failure's message passes through as-is. -/
theorem C9_credential_error_normalized
    (msg sid model t : String) (env : TurnEnv) (h : env.failure = some msg) :
    (handle_user_message sid model t env).frames.getLast?
        = some (OutFrame.error (normalize_stream_error msg))
    ∧ speech_to_text (Except.error msg)
        = ConversionResponse.error (normalize_conversion_error msg) 500
    ∧ text_to_speech (Except.error msg)
        = ConversionResponse.error (normalize_conversion_error msg) 500
    ∧ (credential_error msg = true →
        normalize_stream_error msg
            = "OpenAI API key not configured. Please set OPENAI_API_KEY in Replit Secrets."
          ∧ normalize_conversion_error msg = "OpenAI API key not configured")
    ∧ (credential_error msg = false →
        normalize_stream_error msg = msg
          ∧ normalize_conversion_error msg = msg) := by
  refine ⟨?_, rfl, rfl, ?_, ?_⟩
  · simp [handle_user_message, h]
  · intro hc
    exact ⟨by simp [normalize_stream_error, hc],
      by simp [normalize_conversion_error, hc]⟩
  · intro hc
    exact ⟨by simp [normalize_stream_error, hc],
      by simp [normalize_conversion_error, hc]⟩

/-- Environment for the C9 witness: the provider raises a credential-shaped
error before delivering any chunk. -/
def envC9 : TurnEnv :=
  { chunks := [], failure := some "Incorrect api_key provided"
  , start_time := 0, end_time := 1, utc_timestamp := "2026-01-01 00:00:00" }

/-- Witness for C9 at a concrete credential-shaped provider error. -/
theorem C9_witness :
    envC9.failure = some "Incorrect api_key provided"
    ∧ credential_error "Incorrect api_key provided" = true
    ∧ normalize_stream_error "Incorrect api_key provided"
        = "OpenAI API key not configured. Please set OPENAI_API_KEY in Replit Secrets."
    ∧ normalize_conversion_error "Incorrect api_key provided"
        = "OpenAI API key not configured" := by
  refine ⟨rfl, by decide, ?_, ?_⟩
  · exact ((C9_credential_error_normalized "Incorrect api_key provided"
      "sess" "gpt-4o-mini" "hi" envC9 rfl).2.2.2.1 (by decide)).1
  · exact ((C9_credential_error_normalized "Incorrect api_key provided"
      "sess" "gpt-4o-mini" "hi" envC9 rfl).2.2.2.1 (by decide)).2

/-- C10: a well-formed frame with `type = user_message` but no `text` field
is not rejected: the turn runs in full with the empty string as the
utterance — the provider is called with `build_messages "" none`, the
turn's frames are produced normally, and on natural stream end the billing
record appended is exactly the one any other utterance would produce. -/
theorem C10_missing_text_runs_empty_turn
    (sid model : String) (env : TurnEnv) (rest : List InEvent)
    (h : env.failure = none) :
    (websocket_chat_loop sid model
        (InEvent.frame (some "user_message") none env :: rest)).provider_calls.head?
      = some (build_messages "" none)
    ∧ (websocket_chat_loop sid model
        (InEvent.frame (some "user_message") none env :: rest)).frames
      = (handle_user_message sid model "" env).frames
          ++ (websocket_chat_loop sid model rest).frames
    ∧ (∀ t', (websocket_chat_loop sid model
        (InEvent.frame (some "user_message") none env :: rest)).records.head?
      = (handle_user_message sid model t' env).record) := by
  refine ⟨?_, ?_, ?_⟩
  · simp [websocket_chat_loop, handle_user_message, h]
  · simp [websocket_chat_loop]
  · intro t'
    simp [websocket_chat_loop, handle_user_message, h]

/-- Environment for the C10 witness. -/
def envC10 : TurnEnv :=
  { chunks := [], failure := none, start_time := 0, end_time := 1
  , utc_timestamp := "2026-01-01 00:00:00" }

/-- Witness for C10 at a concrete `user_message` frame lacking `text`. -/
theorem C10_witness :
    envC10.failure = none
    ∧ (websocket_chat_loop "sess" "gpt-4o-mini"
        [InEvent.frame (some "user_message") none envC10]).provider_calls.head?
      = some (build_messages "" none) :=
  ⟨rfl, (C10_missing_text_runs_empty_turn "sess" "gpt-4o-mini" envC10 [] rfl).1⟩

end TherapyRelay
